import Mathlib

/-!
Verification of the SoundSDL audio pipeline (SoundSDL.cxx).

A shallow embedding of the excerpted audio code: the next-fragment pull
callback built in `SoundSDL::initResampler`, the realtime device callback
`SoundSDL::callback`, the volume operations (`setVolume`, `adjustVolume`,
`mute`, `toggleMute`, `setEnabled`, the volume step of `open`), the
resampler construction switch, and the WAV clip player
(`WavHandlerSDL::play`, `stop`, `processWav`).

Samples and gain factors are modelled as rationals; `std::round` is
modelled as exact rounding half away from zero; machine-integer values
stay far from wrap-around in every statement below, so `Nat`/`Int` model
`uInt32`/`int` directly.
-/

namespace Stella

/-- Fragments are identified abstractly: the queue hands out pointers, and
only pointer identity matters to the excerpted code. -/
abbrev Fragment := Nat

/-- The audio queue as the pull callback sees it: fragments in FIFO order. -/
structure AudioQueue where
  fragments : List Fragment
deriving Repr, DecidableEq

/-- `AudioQueue::size()`: number of fragments ready for dequeue. -/
def AudioQueue.size (q : AudioQueue) : Nat := q.fragments.length

/-- Modelled from the spec: `AudioQueue::dequeue(previous)` is declared in
AudioQueue.hxx, whose implementation is not part of the excerpt. Per the
spec (§4.1) it returns the next fragment in FIFO order, or empty
immediately when none is available, releasing the previous fragment handle
back to the pool (pool recycling is not observable here). -/
def AudioQueue.dequeue (q : AudioQueue) (_previous : Option Fragment) :
    Option Fragment × AudioQueue :=
  match q.fragments with
  | [] => (none, q)
  | f :: rest => (some f, ⟨rest⟩)

/-- The state captured by the `nextFragmentCallback` closure of
`SoundSDL::initResampler`: the underrun flag, the current fragment
pointer and the attached audio queue. -/
structure PullState where
  myUnderrun : Bool
  myCurrentFragment : Option Fragment
  myAudioQueue : AudioQueue
deriving Repr, DecidableEq

/-- The `nextFragmentCallback` lambda from `SoundSDL::initResampler`:
when `myUnderrun` holds, dequeue only once the queue has refilled to
`prebufferFragmentCount`; otherwise dequeue unconditionally. Afterwards
`myUnderrun` records whether the pull came back empty, and
`myCurrentFragment` is updated only by a successful dequeue. -/
def nextFragmentCallback (prebufferFragmentCount : Nat) (s : PullState) :
    Option Fragment × PullState :=
  let pulled : Option Fragment × AudioQueue :=
    if s.myUnderrun then
      if prebufferFragmentCount ≤ s.myAudioQueue.size then
        s.myAudioQueue.dequeue s.myCurrentFragment
      else
        (none, s.myAudioQueue)
    else
      s.myAudioQueue.dequeue s.myCurrentFragment
  let nextFragment := pulled.1
  (nextFragment,
    { myUnderrun := nextFragment.isNone,
      myCurrentFragment :=
        match nextFragment with
        | some f => some f
        | none => s.myCurrentFragment,
      myAudioQueue := pulled.2 })

/-- The part of the `SoundSDL` object the realtime device callback reads:
whether an audio queue and a resampler are attached, and the process-wide
volume factor. The resampler is abstracted by its observable behaviour in
the callback: `fillFragment` writes a given number of float samples. -/
structure DeviceCallbackState where
  myAudioQueue : Option AudioQueue
  myResampler : Option (Nat → List ℚ)
  myVolumeFactor : ℚ

/-- `SoundSDL::callback(object, stream, len)`: with a queue and a resampler
attached, reinterpret the `len`-byte stream as `len >> 2` floats, let the
resampler fill them, then multiply every sample by `myVolumeFactor`;
otherwise `SDL_memset` the `len` bytes to zero. The returned list is the
buffer contents on return (float samples in the first case, bytes of
silence in the second). -/
def callback (self : DeviceCallbackState) (len : Nat) : List ℚ :=
  match self.myAudioQueue, self.myResampler with
  | some _, some fill =>
      let length := len >>> 2
      (fill length).map (fun x => x * self.myVolumeFactor)
  | _, _ => List.replicate len 0

/-- `BSPF::clamp(x, lo, hi)`. -/
def clamp (x lo hi : ℤ) : ℤ := max lo (min x hi)

/-- The volume-related state of `SoundSDL`: the initialization flag, the
`AudioSettings` enabled flag and stored volume, and the process-wide
static `myVolumeFactor` (initialized to 0 at line 556). -/
structure VolumeState where
  myIsInitializedFlag : Bool
  enabled : Bool
  volume : Nat
  myVolumeFactor : ℚ
deriving Repr, DecidableEq

/-- `SoundSDL::setVolume(volume)`: only when the backend is initialized and
the argument is at most 100, store the volume in the settings and set the
volume factor to `volume / 100` (or 0 while audio is disabled); any other
call leaves the state untouched. -/
def setVolume (s : VolumeState) (volume : Nat) : VolumeState :=
  if s.myIsInitializedFlag = true ∧ volume ≤ 100 then
    { s with
        volume := volume,
        myVolumeFactor := if s.enabled then (volume : ℚ) / 100 else 0 }
  else s

/-- `SoundSDL::mute(enable)`: muting zeroes the volume factor; unmuting
re-applies the volume stored in the settings. -/
def mute (s : VolumeState) (enable : Bool) : VolumeState :=
  if enable then { s with myVolumeFactor := 0 }
  else setVolume s s.volume

/-- `SoundSDL::toggleMute()` (volume part): muted means a zero volume
factor; toggle by calling `mute` with the opposite state. -/
def toggleMute (s : VolumeState) : VolumeState :=
  mute s (decide (¬s.myVolumeFactor = 0))

/-- `SoundSDL::setEnabled(enable)` (volume part): `mute(!enable)`; the
`pause` call does not touch the volume state. -/
def setEnabled (s : VolumeState) (enable : Bool) : VolumeState :=
  mute s (!enable)

/-- The volume step of `SoundSDL::open` (lines 176-187): when the settings
say audio is disabled, `open` returns before touching the volume;
otherwise it re-applies the volume stored in the settings. -/
def openVolumeStep (s : VolumeState) : VolumeState :=
  if s.enabled then setVolume s s.volume else s

/-- `SoundSDL::adjustVolume(direction)`: clamp `volume + direction*2` to
[0, 100], enable audio first when it was disabled and the target is
positive, then store the clamped value via `setVolume`.
`Console::initializeAudio` is outside the excerpt; per the code's own
comment ("Enable audio if it is currently disabled") it is modelled as
setting the settings-enabled flag, which the final `setVolume` reads. -/
def adjustVolume (s : VolumeState) (direction : ℤ) : VolumeState :=
  let percent : ℤ := clamp ((s.volume : ℤ) + direction * 2) 0 100
  let s1 :=
    if 0 < percent ∧ direction ≠ 0 ∧ s.enabled = false then
      { setEnabled s true with enabled := true }
    else s
  setVolume s1 percent.toNat

/-- Every volume-factor write the excerpt can perform, plus an external
write to the two `AudioSettings` fields (which other components own). -/
inductive VolumeOp where
  | setVolumeOp (v : Nat)
  | muteOp (enable : Bool)
  | toggleMuteOp
  | setEnabledOp (enable : Bool)
  | adjustVolumeOp (direction : ℤ)
  | openOp
  | settingsWrite (v : Nat) (e : Bool)
deriving Repr, DecidableEq

/-- Apply one volume operation. -/
def applyOp (s : VolumeState) : VolumeOp → VolumeState
  | .setVolumeOp v => setVolume s v
  | .muteOp b => mute s b
  | .toggleMuteOp => toggleMute s
  | .setEnabledOp b => setEnabled s b
  | .adjustVolumeOp d => adjustVolume s d
  | .openOp => openVolumeStep s
  | .settingsWrite v e => { s with volume := v, enabled := e }

/-- `std::round`: rounding half away from zero. -/
def roundQ (x : ℚ) : ℤ :=
  if x < 0 then -Rat.floor (-x + 1 / 2) else Rat.floor (x + 1 / 2)

/-- The `SDL_AudioSpec` fields `WavHandlerSDL::processWav` reads. -/
structure WavSpec where
  freq : ℤ
  channels : Nat
deriving Repr, DecidableEq

/-- The state of `WavHandlerSDL` that `processWav` touches: playback speed,
frames remaining, the read position (as an offset from the start of the
decoded buffer), and the source format. -/
structure WavHandlerState where
  mySpeed : ℚ
  myRemaining : Nat
  myPos : Nat
  mySpec : WavSpec
deriving Repr, DecidableEq

/-- What one `processWav` call did, beyond the state update: how many
source frames it consumed (mono 8-bit sample frames, so bytes), and the
target rate of the `SDL_ConvertAudio` step when one ran. -/
structure WavStepInfo where
  consumed : Nat
  convertedFreq : Option ℤ
deriving Repr, DecidableEq

/-- `WavHandlerSDL::processWav(stream, len)` (control flow and arithmetic):
the buffer is first set to silence; with frames remaining and a speed
other than 1, the source length is `round(len / mySpeed)`, the conversion
target rate is `round(freq * origLen / len)` computed before clamping,
the length is then clamped to `myRemaining`, and the clamped count
advances `myPos` and is subtracted from `myRemaining`. With speed 1 the
length is just clamped to `myRemaining`. The sample mixing itself is done
by SDL and is not modelled. -/
def processWav (s : WavHandlerState) (len : Nat) :
    WavHandlerState × WavStepInfo :=
  if s.myRemaining ≠ 0 then
    if s.mySpeed ≠ 1 then
      let origLen : Nat := len
      let len1 : Nat := (roundQ ((len : ℚ) / s.mySpeed)).toNat
      let newFreq : ℤ := roundQ ((s.mySpec.freq : ℚ) * origLen / (len1 : ℚ))
      let len2 : Nat := if s.myRemaining < len1 then s.myRemaining else len1
      ({ s with myPos := s.myPos + len2, myRemaining := s.myRemaining - len2 },
       { consumed := len2, convertedFreq := some newFreq })
    else
      let len2 : Nat := if s.myRemaining < len then s.myRemaining else len
      ({ s with myPos := s.myPos + len2, myRemaining := s.myRemaining - len2 },
       { consumed := len2, convertedFreq := none })
  else
    (s, { consumed := 0, convertedFreq := none })

/-- The state of `WavHandlerSDL` that `play` and `stop` touch. The decoded
buffer is identified abstractly (`SDL_LoadWAV` hands out a pointer);
`myPos` is kept as an offset from the buffer start and `myDevice` as the
"device handle is open" flag. -/
structure WavPlayerState where
  myFilename : String
  myBuffer : Option Nat
  myLength : Nat
  myRemaining : Nat
  myPos : Nat
  myDevice : Bool
deriving Repr, DecidableEq

/-- What `WavHandlerSDL::play` returns and leaves behind: the success flag,
the new state, and whether `SDL_LoadWAV` was invoked (the file was decoded
rather than the cached buffer reused). -/
structure PlayResult where
  ok : Bool
  state : WavPlayerState
  didDecode : Bool
deriving Repr, DecidableEq

/-- The tail of `WavHandlerSDL::play` after the load step: fail when
`position > myLength`; otherwise record the file name, reset
`myRemaining` to `min(length, myLength - position)` (or the whole buffer
when `length` is 0), point `myPos` at `position`, and lazily open the
device (failing when the open fails). -/
def playAfterLoad (s : WavPlayerState) (fileName : String)
    (position length : Nat) (deviceOk loaded : Bool) : PlayResult :=
  if s.myLength < position then
    { ok := false, state := s, didDecode := loaded }
  else
    let s1 : WavPlayerState :=
      { s with
          myFilename := fileName,
          myRemaining :=
            if length ≠ 0 then min length (s.myLength - position)
            else s.myLength,
          myPos := position }
    if s1.myDevice then
      { ok := true, state := s1, didDecode := loaded }
    else if deviceOk then
      { ok := true, state := { s1 with myDevice := true }, didDecode := loaded }
    else
      { ok := false, state := s1, didDecode := loaded }

/-- `WavHandlerSDL::play(fileName, device, position, length)`. `fs` models
the filesystem as seen through `SDL_LoadWAV`: the decoded buffer and its
byte length for loadable files, `none` for missing or corrupt ones.
`deviceOk` models whether `SDL_OpenAudioDevice` succeeds. When the file
name differs from the cached one or no buffer is cached, the cached
buffer is freed first and the file is (re)decoded, failing when the load
fails; otherwise the cached buffer is reused without touching the file. -/
def play (fs : String → Option (Nat × Nat)) (deviceOk : Bool)
    (s : WavPlayerState) (fileName : String) (position length : Nat) :
    PlayResult :=
  if fileName ≠ s.myFilename ∨ s.myBuffer = none then
    let s1 : WavPlayerState := { s with myBuffer := none }
    match fs fileName with
    | none => { ok := false, state := s1, didDecode := true }
    | some (buf, blen) =>
        playAfterLoad { s1 with myBuffer := some buf, myLength := blen }
          fileName position length deviceOk true
  else
    playAfterLoad s fileName position length deviceOk false

/-- `WavHandlerSDL::stop()`: when a buffer is held, zero the remaining
count, close the device and free the buffer (the conversion scratch
buffer, not modelled here, is released as well). -/
def stop (s : WavPlayerState) : WavPlayerState :=
  if s.myBuffer.isSome then
    { s with myRemaining := 0, myDevice := false, myBuffer := none }
  else s

/-- `AudioSettings::ResamplingQuality` as `initResampler` reads it: the
three recognized presets, plus a value outside them (the enum is stored
as a plain setting, so an out-of-range value can reach the switch). -/
inductive ResamplingQuality where
  | nearestNeighbour
  | lanczos_2
  | lanczos_3
  | unrecognized
deriving Repr, DecidableEq

namespace Resampler

/-- `Resampler::Format`: sample rate, fragment size and stereo flag. -/
structure Format where
  sampleRate : Nat
  fragmentSize : Nat
  stereo : Bool
deriving Repr, DecidableEq

end Resampler

/-- Which resampler `SoundSDL::initResampler` constructs. -/
inductive ResamplerImpl where
  | simple (formatFrom formatTo : Resampler.Format)
  | lanczos (formatFrom formatTo : Resampler.Format) (a : Nat)
deriving Repr, DecidableEq

/-- The construction switch of `SoundSDL::initResampler` (lines 356-376):
each recognized preset constructs its resampler variant; any other value
throws `runtime_error("invalid resampling quality")` at pipeline-open
time, modelled as `Except.error`. -/
def initResampler (quality : ResamplingQuality)
    (formatFrom formatTo : Resampler.Format) : Except String ResamplerImpl :=
  match quality with
  | .nearestNeighbour => .ok (.simple formatFrom formatTo)
  | .lanczos_2 => .ok (.lanczos formatFrom formatTo 2)
  | .lanczos_3 => .ok (.lanczos formatFrom formatTo 3)
  | .unrecognized => .error "invalid resampling quality"

/-- A tiny filesystem for concrete runs: one loadable clip, everything else
missing. -/
def fsClip : String → Option (Nat × Nat) := fun n =>
  if n = "clip.wav" then some (1, 100) else none

/-- A fresh `WavHandlerSDL` (all members value-initialized). -/
def wavInit : WavPlayerState :=
  { myFilename := "", myBuffer := none, myLength := 0, myRemaining := 0,
    myPos := 0, myDevice := false }

/-- A player state in which a previous clip is loaded and playing. -/
def wavPlaying : WavPlayerState :=
  { myFilename := "clip.wav", myBuffer := some 7, myLength := 50,
    myRemaining := 20, myPos := 3, myDevice := true }

end Stella

namespace Stella

/-- C1: with the underrun flag set, the pull callback dequeues only when the
queue has at least `prebufferFragmentCount` fragments (otherwise it returns
empty and leaves the queue untouched); with the flag clear it dequeues
unconditionally; and after the call the flag is set exactly when the pull
returned empty. -/
theorem pull_callback_underrun_policy (prebufferFragmentCount : Nat)
    (s : PullState) :
    (s.myUnderrun = true → s.myAudioQueue.size < prebufferFragmentCount →
      (nextFragmentCallback prebufferFragmentCount s).1 = none ∧
      (nextFragmentCallback prebufferFragmentCount s).2.myAudioQueue =
        s.myAudioQueue) ∧
    (s.myUnderrun = true → prebufferFragmentCount ≤ s.myAudioQueue.size →
      ((nextFragmentCallback prebufferFragmentCount s).1,
       (nextFragmentCallback prebufferFragmentCount s).2.myAudioQueue) =
        s.myAudioQueue.dequeue s.myCurrentFragment) ∧
    (s.myUnderrun = false →
      ((nextFragmentCallback prebufferFragmentCount s).1,
       (nextFragmentCallback prebufferFragmentCount s).2.myAudioQueue) =
        s.myAudioQueue.dequeue s.myCurrentFragment) ∧
    ((nextFragmentCallback prebufferFragmentCount s).2.myUnderrun = true ↔
      (nextFragmentCallback prebufferFragmentCount s).1 = none) := by
  refine ⟨?_, ?_, ?_, ?_⟩
  · intro hu hlt
    simp [nextFragmentCallback, hu, Nat.not_le.mpr hlt]
  · intro hu hle
    simp [nextFragmentCallback, hu, hle]
  · intro hu
    simp [nextFragmentCallback, hu]
  · rcases hu : s.myUnderrun with _ | _ <;>
      rcases hq : s.myAudioQueue.fragments with _ | ⟨f, rest⟩ <;>
      simp [nextFragmentCallback, hu, AudioQueue.dequeue, hq,
        Option.isNone_iff_eq_none]

/-- C10: a pull that comes back empty leaves the current-fragment pointer
unchanged; the pointer is updated exactly by a successful dequeue. -/
theorem pull_callback_preserves_current_fragment
    (prebufferFragmentCount : Nat) (s : PullState) :
    ((nextFragmentCallback prebufferFragmentCount s).1 = none →
      (nextFragmentCallback prebufferFragmentCount s).2.myCurrentFragment =
        s.myCurrentFragment) ∧
    (∀ f, (nextFragmentCallback prebufferFragmentCount s).1 = some f →
      (nextFragmentCallback prebufferFragmentCount s).2.myCurrentFragment =
        some f) := by
  constructor
  · intro h
    simp only [nextFragmentCallback] at h ⊢
    rw [h]
  · intro f h
    simp only [nextFragmentCallback] at h ⊢
    rw [h]

/-- C2: when no queue or no resampler is attached, the device callback fills
the whole `len`-byte buffer with zeros; otherwise the buffer is the
resampler's output of `len / 4` float samples with each sample then
multiplied by the current volume factor — volume scaling is applied after
resampling, as the final step. -/
theorem callback_silence_and_volume_order (self : DeviceCallbackState)
    (len : Nat) :
    ((self.myAudioQueue = none ∨ self.myResampler = none) →
      callback self len = List.replicate len 0) ∧
    (∀ q fill, self.myAudioQueue = some q → self.myResampler = some fill →
      callback self len =
        (fill (len / 4)).map (fun x => x * self.myVolumeFactor)) := by
  constructor
  · rintro (h | h) <;> simp [callback, h]
  · intro q fill hq hr
    have hshift : len >>> 2 = len / 4 := by
      simpa using Nat.shiftRight_eq_div_pow len 2
    simp [callback, hq, hr, hshift]

/-- C3: with a speed other than 1 and frames remaining, one `processWav`
call consumes `round(len / speed)` source frames (clamped to the
remaining count), converts at target rate `round(freq * len /
round(len / speed))`, and decrements the remaining counter by the
pre-conversion frame count it consumed. -/
theorem processWav_speed_conversion (s : WavHandlerState) (len : Nat)
    (hspeed : s.mySpeed ≠ 1) (hrem : s.myRemaining ≠ 0) :
    (processWav s len).2.consumed =
      min ((roundQ ((len : ℚ) / s.mySpeed)).toNat) s.myRemaining ∧
    (processWav s len).2.convertedFreq =
      some (roundQ ((s.mySpec.freq : ℚ) * (len : ℚ) /
        (((roundQ ((len : ℚ) / s.mySpeed)).toNat : ℚ)))) ∧
    (processWav s len).1.myRemaining =
      s.myRemaining - (processWav s len).2.consumed ∧
    (processWav s len).1.myPos = s.myPos + (processWav s len).2.consumed := by
  unfold processWav
  rw [if_pos hrem, if_pos hspeed]
  refine ⟨?_, rfl, rfl, rfl⟩
  show (if s.myRemaining < (roundQ ((len : ℚ) / s.mySpeed)).toNat then
      s.myRemaining else (roundQ ((len : ℚ) / s.mySpeed)).toNat) =
    min ((roundQ ((len : ℚ) / s.mySpeed)).toNat) s.myRemaining
  rcases Nat.lt_or_ge s.myRemaining ((roundQ ((len : ℚ) / s.mySpeed)).toNat)
    with hlt | hge
  · rw [if_pos hlt, Nat.min_eq_right (Nat.le_of_lt hlt)]
  · rw [if_neg (Nat.not_lt.mpr hge), Nat.min_eq_left hge]

/-- Witness for C3 at the spec's own example: speed 1.3 and a requested
length of 1000 consume `round(1000 / 1.3) = 769` source frames, convert
to rate `round(31400 * 1000 / 769) = 40832`, and decrement the remaining
count by the 769 consumed frames. -/
theorem processWav_speed_conversion_witness :
    (processWav ⟨13 / 10, 5000, 0, ⟨31400, 1⟩⟩ 1000).2.consumed = 769 ∧
    (processWav ⟨13 / 10, 5000, 0, ⟨31400, 1⟩⟩ 1000).2.convertedFreq =
      some 40832 ∧
    (processWav ⟨13 / 10, 5000, 0, ⟨31400, 1⟩⟩ 1000).1.myRemaining = 4231 ∧
    (processWav ⟨13 / 10, 5000, 0, ⟨31400, 1⟩⟩ 1000).1.myPos = 769 := by
  have happ := processWav_speed_conversion ⟨13 / 10, 5000, 0, ⟨31400, 1⟩⟩ 1000
    (by norm_num) (by norm_num)
  have hfloor : ∀ q : ℚ, Rat.floor q = ⌊q⌋ := fun q => rfl
  have ht : Int.toNat 769 = 769 := by decide
  have hc : (processWav ⟨13 / 10, 5000, 0, ⟨31400, 1⟩⟩ 1000).2.consumed =
      769 := by
    rw [happ.1]
    norm_num [roundQ, hfloor, ht]
  refine ⟨hc, ?_, ?_, ?_⟩
  · rw [happ.2.1]
    norm_num [roundQ, hfloor, ht]
  · rw [happ.2.2.1, hc]
    decide
  · rw [happ.2.2.2, hc]

/-- `playAfterLoad` reports exactly the load flag it was given. -/
theorem playAfterLoad_didDecode (s : WavPlayerState) (fileName : String)
    (position length : Nat) (deviceOk loaded : Bool) :
    (playAfterLoad s fileName position length deviceOk loaded).didDecode =
      loaded := by
  unfold playAfterLoad
  dsimp only
  repeat' split
  all_goals rfl

/-- `stop` always leaves no cached buffer behind. -/
theorem stop_myBuffer_none (s : WavPlayerState) : (stop s).myBuffer = none := by
  unfold stop
  rcases h : s.myBuffer with _ | b <;> simp [h]

/-- When the load path is taken, the file loads, the offset is in range
and the device opens, `play` succeeds with a fully determined result. -/
theorem play_load_success (fs : String → Option (Nat × Nat))
    (s : WavPlayerState) (fileName : String) (buf blen position length : Nat)
    (hcond : fileName ≠ s.myFilename ∨ s.myBuffer = none)
    (hfs : fs fileName = some (buf, blen)) (hpos : position ≤ blen) :
    play fs true s fileName position length =
      { ok := true,
        state :=
          { myFilename := fileName, myBuffer := some buf, myLength := blen,
            myRemaining :=
              if length ≠ 0 then min length (blen - position) else blen,
            myPos := position, myDevice := true },
        didDecode := true } := by
  unfold play
  rw [if_pos hcond, hfs]
  unfold playAfterLoad
  dsimp only
  rw [if_neg (Nat.not_lt.mpr hpos)]
  rcases hd : s.myDevice with _ | _ <;> simp [hd]

/-- Counterexample to C4 as stated: after a successful play of
`clip.wav`, `stop()` followed by `play()` of the same file decodes the
file again (`didDecode` is true), instead of reusing the cached buffer. -/
theorem stop_play_counterexample :
    (play fsClip true (stop (play fsClip true wavInit "clip.wav" 0 0).state)
        "clip.wav" 0 0).ok = true ∧
    (play fsClip true (stop (play fsClip true wavInit "clip.wav" 0 0).state)
        "clip.wav" 0 0).didDecode = true := by decide

/-- C4 as amended: `stop()` frees the cached buffer, so a following
`play()` of the same asset re-decodes the file; it still succeeds and
resets the remaining count to the full requested length. The decoded
buffer is reused (no re-decode) only across `play()` calls with no
intervening `stop()`. -/
theorem stop_play_redecodes_and_resets (fs : String → Option (Nat × Nat))
    (s : WavPlayerState) (fileName : String) (buf blen position length : Nat)
    (hfs : fs fileName = some (buf, blen)) (hpos : position ≤ blen) :
    (play fs true (stop s) fileName position length).didDecode = true ∧
    (play fs true (stop s) fileName position length).ok = true ∧
    (play fs true (stop s) fileName position length).state.myRemaining =
      (if length ≠ 0 then min length (blen - position) else blen) ∧
    (fileName = s.myFilename → s.myBuffer.isSome = true →
      (play fs true s fileName position length).didDecode = false) := by
  have key := play_load_success fs (stop s) fileName buf blen position length
    (Or.inr (stop_myBuffer_none s)) hfs hpos
  refine ⟨by rw [key], by rw [key], by rw [key], ?_⟩
  intro hname hbuf
  have hcond2 : ¬(fileName ≠ s.myFilename ∨ s.myBuffer = none) := by
    push_neg
    refine ⟨hname, ?_⟩
    simp only [Option.isSome_iff_exists] at hbuf
    rcases hbuf with ⟨b, hb⟩
    simp [hb]
  unfold play
  rw [if_neg hcond2]
  exact playAfterLoad_didDecode _ _ _ _ _ _

/-- Witness for C4's amended statement at a concrete run. -/
theorem stop_play_redecodes_and_resets_witness :
    (play fsClip true (stop wavPlaying) "clip.wav" 0 0).didDecode = true ∧
    (play fsClip true (stop wavPlaying) "clip.wav" 0 0).ok = true ∧
    (play fsClip true (stop wavPlaying) "clip.wav" 0 0).state.myRemaining =
      (if (0 : Nat) ≠ 0 then min 0 (100 - 0) else 100) ∧
    ("clip.wav" = wavPlaying.myFilename → wavPlaying.myBuffer.isSome = true →
      (play fsClip true wavPlaying "clip.wav" 0 0).didDecode = false) :=
  stop_play_redecodes_and_resets fsClip wavPlaying "clip.wav" 1 100 0 0
    (by decide) (by decide)

/-- Counterexample to C5 as stated: with `clip.wav` loaded and playing,
`play` on a missing file returns false but does not leave the previously
loaded buffer untouched — it frees it. -/
theorem play_missing_file_counterexample :
    (play fsClip true wavPlaying "missing.wav" 0 0).ok = false ∧
    wavPlaying.myBuffer = some 7 ∧
    (play fsClip true wavPlaying "missing.wav" 0 0).state.myBuffer ≠
      some 7 := by decide

/-- C5 as amended: when the load attempt fails, `play` returns false and
leaves the previous clip's file name, position, remaining count, length
and device untouched, but the previously cached decoded buffer has been
freed (set to null) before the failed load. -/
theorem play_load_failure_effects (fs : String → Option (Nat × Nat))
    (deviceOk : Bool) (s : WavPlayerState) (fileName : String)
    (position length : Nat)
    (hload : fileName ≠ s.myFilename ∨ s.myBuffer = none)
    (hfs : fs fileName = none) :
    (play fs deviceOk s fileName position length).ok = false ∧
    (play fs deviceOk s fileName position length).state.myFilename =
      s.myFilename ∧
    (play fs deviceOk s fileName position length).state.myPos = s.myPos ∧
    (play fs deviceOk s fileName position length).state.myRemaining =
      s.myRemaining ∧
    (play fs deviceOk s fileName position length).state.myLength =
      s.myLength ∧
    (play fs deviceOk s fileName position length).state.myDevice =
      s.myDevice ∧
    (play fs deviceOk s fileName position length).state.myBuffer = none := by
  have key : play fs deviceOk s fileName position length =
      { ok := false, state := { s with myBuffer := none },
        didDecode := true } := by
    unfold play
    rw [if_pos hload, hfs]
  rw [key]
  exact ⟨rfl, rfl, rfl, rfl, rfl, rfl, rfl⟩

/-- Witness for C5's amended statement at a concrete run. -/
theorem play_load_failure_effects_witness :
    (play fsClip true wavPlaying "missing.wav" 0 0).ok = false ∧
    (play fsClip true wavPlaying "missing.wav" 0 0).state.myFilename =
      wavPlaying.myFilename ∧
    (play fsClip true wavPlaying "missing.wav" 0 0).state.myPos =
      wavPlaying.myPos ∧
    (play fsClip true wavPlaying "missing.wav" 0 0).state.myRemaining =
      wavPlaying.myRemaining ∧
    (play fsClip true wavPlaying "missing.wav" 0 0).state.myLength =
      wavPlaying.myLength ∧
    (play fsClip true wavPlaying "missing.wav" 0 0).state.myDevice =
      wavPlaying.myDevice ∧
    (play fsClip true wavPlaying "missing.wav" 0 0).state.myBuffer = none :=
  play_load_failure_effects fsClip true wavPlaying "missing.wav" 0 0
    (Or.inl (by decide)) (by decide)

/-- Counterexample to C6 as stated: on an initialized backend with stored
volume 50, `setVolume 150` leaves the stored volume at 50 — it does not
clamp to 100 (and the factor does not become 1). -/
theorem setVolume_above_100_counterexample :
    (setVolume ⟨true, true, 50, 1 / 2⟩ 150).volume = 50 ∧
    (setVolume ⟨true, true, 50, 1 / 2⟩ 150).volume ≠ 100 ∧
    (setVolume ⟨true, true, 50, 1 / 2⟩ 150).myVolumeFactor ≠ 1 := by
  norm_num [setVolume]

/-- C6 as amended: `setVolume` stores the requested volume (and sets the
factor to `volume/100` when audio is enabled) only when the backend is
initialized and the value is at most 100; a call with a value above 100,
or on an uninitialized backend, is a no-op rather than a clamp. -/
theorem setVolume_guard_behavior (s : VolumeState) (v : Nat) :
    (100 < v → setVolume s v = s) ∧
    (s.myIsInitializedFlag = false → setVolume s v = s) ∧
    (s.myIsInitializedFlag = true → v ≤ 100 →
      (setVolume s v).volume = v ∧
      (setVolume s v).myVolumeFactor =
        (if s.enabled then (v : ℚ) / 100 else 0)) := by
  refine ⟨?_, ?_, ?_⟩
  · intro hv
    unfold setVolume
    rw [if_neg (by omega)]
  · intro hflag
    unfold setVolume
    rw [if_neg (by simp [hflag])]
  · intro hflag hv
    unfold setVolume
    rw [if_pos ⟨hflag, hv⟩]
    exact ⟨rfl, rfl⟩

/-- C7: on an initialized backend with a stored volume in [0,100],
`adjustVolume(direction)` changes the stored volume by exactly
`direction * 2`, clamped to [0,100]. -/
theorem adjustVolume_step_clamped (s : VolumeState) (d : ℤ)
    (hinit : s.myIsInitializedFlag = true) (_hv : s.volume ≤ 100) :
    ((adjustVolume s d).volume : ℤ) =
      clamp ((s.volume : ℤ) + d * 2) 0 100 := by
  unfold adjustVolume
  set percent : ℤ := clamp ((s.volume : ℤ) + d * 2) 0 100 with hp
  have h0 : 0 ≤ percent := le_max_left _ _
  have h100 : percent ≤ 100 := max_le (by norm_num) (min_le_right _ _)
  have hflag1 : ∀ t : VolumeState, (setVolume t s.volume).myIsInitializedFlag =
      t.myIsInitializedFlag := by
    intro t
    unfold setVolume
    split <;> rfl
  have hinit1 :
      (if 0 < percent ∧ d ≠ 0 ∧ s.enabled = false then
        { setEnabled s true with enabled := true }
      else s).myIsInitializedFlag = true := by
    split
    · show (setEnabled s true).myIsInitializedFlag = true
      unfold setEnabled mute
      simp only [Bool.not_true, Bool.false_eq_true, if_false]
      rw [hflag1 s, hinit]
    · exact hinit
  unfold setVolume
  rw [if_pos ⟨hinit1, by omega⟩]
  simp only
  omega

/-- Witness for C7 at the upper clamp: volume 99, one step up, lands on
100 exactly. -/
theorem adjustVolume_step_clamped_witness :
    ((adjustVolume ⟨true, true, 99, 99 / 100⟩ 1).volume : ℤ) =
      clamp (((99 : Nat) : ℤ) + 1 * 2) 0 100 :=
  adjustVolume_step_clamped ⟨true, true, 99, 99 / 100⟩ 1 (by decide) (by decide)

/-- C8: each recognized resampling-quality preset constructs its resampler
variant (SimpleResampler for nearest-neighbour, LanczosResampler with
parameter 2 or 3 for the Lanczos presets), and construction fails — at
pipeline-open time, before any realtime callback — exactly for a selector
outside the recognized presets. -/
theorem initResampler_quality_switch (formatFrom formatTo : Resampler.Format) :
    initResampler .nearestNeighbour formatFrom formatTo =
      .ok (.simple formatFrom formatTo) ∧
    initResampler .lanczos_2 formatFrom formatTo =
      .ok (.lanczos formatFrom formatTo 2) ∧
    initResampler .lanczos_3 formatFrom formatTo =
      .ok (.lanczos formatFrom formatTo 3) ∧
    ∀ quality, (∃ e, initResampler quality formatFrom formatTo = .error e) ↔
      quality = .unrecognized := by
  refine ⟨rfl, rfl, rfl, ?_⟩
  intro quality
  cases quality <;> simp [initResampler]

/-- `setVolume` keeps the volume factor inside [0,1] whenever it was
there. -/
theorem setVolume_factor_bounds (s : VolumeState) (v : Nat)
    (h : 0 ≤ s.myVolumeFactor ∧ s.myVolumeFactor ≤ 1) :
    0 ≤ (setVolume s v).myVolumeFactor ∧
      (setVolume s v).myVolumeFactor ≤ 1 := by
  unfold setVolume
  split
  · rename_i hcond
    simp only
    split
    · constructor
      · positivity
      · rw [div_le_one (by norm_num)]
        exact_mod_cast hcond.2
    · norm_num
  · exact h

/-- Every operation of the excerpt keeps the volume factor inside [0,1]. -/
theorem applyOp_factor_bounds (s : VolumeState) (op : VolumeOp)
    (h : 0 ≤ s.myVolumeFactor ∧ s.myVolumeFactor ≤ 1) :
    0 ≤ (applyOp s op).myVolumeFactor ∧
      (applyOp s op).myVolumeFactor ≤ 1 := by
  have hmute : ∀ (t : VolumeState) (b : Bool),
      0 ≤ t.myVolumeFactor ∧ t.myVolumeFactor ≤ 1 →
      0 ≤ (mute t b).myVolumeFactor ∧ (mute t b).myVolumeFactor ≤ 1 := by
    intro t b ht
    unfold mute
    split
    · norm_num
    · exact setVolume_factor_bounds t t.volume ht
  cases op with
  | setVolumeOp v => exact setVolume_factor_bounds s v h
  | muteOp b => exact hmute s b h
  | toggleMuteOp => exact hmute s _ h
  | setEnabledOp b => exact hmute s _ h
  | adjustVolumeOp d =>
      show 0 ≤ (adjustVolume s d).myVolumeFactor ∧
        (adjustVolume s d).myVolumeFactor ≤ 1
      unfold adjustVolume
      dsimp only
      refine setVolume_factor_bounds _ _ ?_
      split
      · show 0 ≤ (setEnabled s true).myVolumeFactor ∧
          (setEnabled s true).myVolumeFactor ≤ 1
        exact hmute s _ h
      · exact h
  | openOp =>
      show 0 ≤ (openVolumeStep s).myVolumeFactor ∧
        (openVolumeStep s).myVolumeFactor ≤ 1
      unfold openVolumeStep
      split
      · exact setVolume_factor_bounds s s.volume h
      · exact h
  | settingsWrite v e => exact h

/-- C9: starting from the static initialization `myVolumeFactor = 0`, any
sequence of the excerpt's volume operations (and arbitrary external
writes to the audio settings) keeps the process-wide volume factor in
[0,1]: no operation can make the gain multiplier negative or greater
than 1. -/
theorem volume_factor_stays_in_unit_interval (ops : List VolumeOp)
    (flag en : Bool) (v : Nat) :
    0 ≤ (ops.foldl applyOp ⟨flag, en, v, 0⟩).myVolumeFactor ∧
      (ops.foldl applyOp ⟨flag, en, v, 0⟩).myVolumeFactor ≤ 1 := by
  have general : ∀ (l : List VolumeOp) (s : VolumeState),
      0 ≤ s.myVolumeFactor ∧ s.myVolumeFactor ≤ 1 →
      0 ≤ (l.foldl applyOp s).myVolumeFactor ∧
        (l.foldl applyOp s).myVolumeFactor ≤ 1 := by
    intro l
    induction l with
    | nil => intro s hs; exact hs
    | cons op rest ih =>
        intro s hs
        exact ih (applyOp s op) (applyOp_factor_bounds s op hs)
  exact general ops ⟨flag, en, v, 0⟩ ⟨le_refl 0, by norm_num⟩

end Stella
